import Mathlib

/-
  Verification development for the ihex library: a shallow embedding in Lean 4 of the
  Go sources (record.go, recordType.go, fileType.go, errors.go, fileWriter.go,
  i8hex.go, i16hex.go, i32hex.go, ihex.go, and the older draft in unnamed/part_000).
  Bytes are modelled as Nat values below 256, byte slices as List Nat, and machine
  integer casts as explicit masks and remainders.
-/

set_option maxRecDepth 8000

deriving instance DecidableEq for Except

namespace Ihex

-- RecordType constants from recordType.go (byte values).
def RecordData : Nat := 0x00

def RecordEOF : Nat := 0x01

def RecordExtSegment : Nat := 0x02

def RecordStartSegment : Nat := 0x03

def RecordExtLinear : Nat := 0x04

def RecordStartLinear : Nat := 0x05

-- FileType constants from fileType.go (byte values).
def I8HEX : Nat := 8

def I16HEX : Nat := 16

def I32HEX : Nat := 32

-- Constants from record.go.
def recordMaximumDataSize : Nat := 255

def recordEOFChecksum : Nat := 0xFF

-- recordStartChar is the character code of the colon that starts a HEX record.
def recordStartChar : Nat := 58

-- Constants from ihex.go and unnamed/part_000 (same numeric values as above).
def maxRecordLen : Nat := 521

def recordStartCode : Nat := 58

def RecordTypeData : Nat := 0

def RecordTypeEndOfFile : Nat := 1

def RecordTypeExtendedSegmentAddress : Nat := 2

def RecordTypeStartSegmentAddress : Nat := 3

def RecordTypeExtendedLinearAddress : Nat := 4

def RecordTypeStartLinearAddress : Nat := 5

def HexFileTypeI8HEX : Nat := 8

def HexFileTypeI16HEX : Nat := 16

def HexFileTypeI32HEX : Nat := 32

/-- Record models the Go struct of record.go (Type, AddressOffset uint16, Data bytes);
ihex.go and unnamed/part_000 declare the identical struct under the field name RecordType. -/
structure Record where
  type : Nat
  addressOffset : Nat
  data : List Nat
deriving DecidableEq, Repr

/-- uint32Sum models the accumulation loop sum += uint32(d) over a byte slice,
with the 32-bit wraparound made explicit. -/
def uint32Sum (data : List Nat) : Nat :=
  data.foldl (fun s d => (s + d) % 4294967296) 0

/-- generateChecksum from unnamed/part_000 and ihex.go: 0xFF for EndOfFile records, otherwise
byte complement of the low byte of the 32-bit sum plus one, with byte wraparound on the plus one. -/
def generateChecksum (data : List Nat) (recordType : Nat) : Nat :=
  if recordType = RecordTypeEndOfFile then recordEOFChecksum
  else (((4294967295 - uint32Sum data) &&& 0x000000FF) + 1) % 256

/-- Record.getChecksum from record.go; its body is the same two arm computation as
generateChecksum, written against the record fields. -/
def Record.getChecksum (me : Record) : Nat :=
  if me.type = RecordEOF then recordEOFChecksum
  else (((4294967295 - uint32Sum me.data) &&& 0x000000FF) + 1) % 256

/-- Record.validate from record.go: the record and file type compatibility check. -/
def Record.validate (me : Record) (fileType : Nat) : Bool :=
  me.type == RecordData || me.type == RecordEOF ||
    ((me.type == RecordExtSegment || me.type == RecordStartSegment) && fileType == I16HEX) ||
    ((me.type == RecordExtLinear || me.type == RecordStartLinear) && fileType == I32HEX)

-- Uppercase hexadecimal digit character code of a value below 16; this models the
-- fmt %X verbs as well as hex.Encode followed by strings.ToUpper.
def hexDigit (n : Nat) : Nat := if n < 10 then 48 + n else 55 + n

-- fmt.Sprintf with verb %02X applied to a byte-sized value.
def hex2 (n : Nat) : List Nat := [hexDigit (n / 16 % 16), hexDigit (n % 16)]

-- fmt.Sprintf with verb %04X applied to a uint16 value.
def hex4 (n : Nat) : List Nat :=
  [hexDigit (n / 4096 % 16), hexDigit (n / 256 % 16), hexDigit (n / 16 % 16), hexDigit (n % 16)]

-- hex.Encode of a byte slice followed by strings.ToUpper.
def hexEncodeUpper : List Nat → List Nat
  | [] => []
  | b :: rest => hexDigit (b / 16 % 16) :: hexDigit (b % 16) :: hexEncodeUpper rest

/-- The text line built by Record.write in record.go before the newline: the start character,
then %02X of the data length, %04X of the address, %02X of the type, the uppercase data hex,
and %02X of the checksum. The write methods of ihex.go and unnamed/part_000 build the same line. -/
def Record.encodeLine (me : Record) : List Nat :=
  recordStartChar ::
    (hex2 me.data.length ++ hex4 me.addressOffset ++ hex2 me.type ++
      hexEncodeUpper me.data ++ hex2 me.getChecksum)

/-- Record.write from record.go: the encoded line followed by the newline byte. -/
def Record.write (me : Record) : List Nat := me.encodeLine ++ [10]

-- Value of one hexadecimal character code, upper or lower case (the digit table shared by
-- strconv parsing and hex.Decode).
def hexCharVal (c : Nat) : Option Nat :=
  if 48 ≤ c ∧ c ≤ 57 then some (c - 48)
  else if 65 ≤ c ∧ c ≤ 70 then some (c - 55)
  else if 97 ≤ c ∧ c ≤ 102 then some (c - 87)
  else none

def parseHexCore : List Nat → Nat → Option Nat
  | [], acc => some acc
  | c :: rest, acc =>
    match hexCharVal c with
    | none => none
    | some v => parseHexCore rest (acc * 16 + v)

-- The digit scan of strconv.ParseInt and strconv.ParseUint with base 16 on a digits-only
-- string; an empty string is a syntax error. The bit-size range checks are applied at the
-- call sites, as in the Go sources.
def parseHexDigits (l : List Nat) : Option Nat :=
  match l with
  | [] => none
  | _ => parseHexCore l 0

-- hex.Decode: pairs of hexadecimal characters become bytes; a bad digit or an odd length
-- is an error.
def hexDecodePairs : List Nat → Option (List Nat)
  | [] => some []
  | [_] => none
  | c1 :: c2 :: rest =>
    match hexCharVal c1, hexCharVal c2, hexDecodePairs rest with
    | some v1, some v2, some bs => some ((v1 * 16 + v2) :: bs)
    | _, _, _ => none

/-- The failure cases of the two record readers (readRecord in unnamed/part_000 and
Record.read in ihex.go), one constructor per return branch. -/
inductive ReadErr where
  | panicIndex
  | maxLen
  | startCode
  | byteCountParse
  | byteCountTooLarge
  | byteCountMismatch
  | addressParse
  | typeParse
  | invalidType
  | dataDecode
  | dataLen
  | checksumParse
  | checksumMismatch
deriving DecidableEq, Repr

/-- readRecord from unnamed/part_000 (lines 228 to 321), applied to one full line with the
newline already removed by ReadLine. ParseInt with bit size 8 makes any byte count above 127
a range error, folded here into byteCountParse exactly as the Go error branch folds it.
On a line shorter than 11 characters Go would take a slice with negative bounds and crash;
this model reports a later error instead, a case no claim depends on. -/
def readRecord (line : List Nat) : Except ReadErr Record :=
  if line.length > maxRecordLen then .error .maxLen
  else
    match line with
    | [] => .error .panicIndex
    | c0 :: _ =>
      if c0 ≠ recordStartCode then .error .startCode
      else
        match parseHexDigits ((line.drop 1).take 2) with
        | none => .error .byteCountParse
        | some byteCount =>
          if byteCount > 127 then .error .byteCountParse
          else
            let actualByteCount : Int := Int.tdiv ((line.length : Int) - 11) 2
            if byteCount > 255 then .error .byteCountTooLarge
            else if (byteCount : Int) ≠ actualByteCount then .error .byteCountMismatch
            else
              match parseHexDigits ((line.drop 3).take 4) with
              | none => .error .addressParse
              | some address =>
                if address > 65535 then .error .addressParse
                else
                  match parseHexDigits ((line.drop 7).take 2) with
                  | none => .error .typeParse
                  | some recordType =>
                    if recordType > 255 then .error .typeParse
                    else if recordType ≠ RecordTypeData ∧ recordType ≠ RecordTypeEndOfFile ∧
                        recordType ≠ RecordTypeExtendedLinearAddress ∧
                        recordType ≠ RecordTypeExtendedSegmentAddress ∧
                        recordType ≠ RecordTypeStartLinearAddress ∧
                        recordType ≠ RecordTypeStartSegmentAddress then
                      .error .invalidType
                    else
                      match hexDecodePairs ((line.drop 9).take (line.length - 11)) with
                      | none => .error .dataDecode
                      | some data =>
                        if data.length ≠ byteCount then .error .dataLen
                        else
                          match parseHexDigits ((line.drop (line.length - 2)).take 2) with
                          | none => .error .checksumParse
                          | some recordChecksum =>
                            if recordChecksum > 255 then .error .checksumParse
                            else if recordChecksum % 256 ≠ generateChecksum data recordType then
                              .error .checksumMismatch
                            else .ok ⟨recordType, address, data⟩

/-- Record.read from ihex.go: the same sequence of checks as readRecord except that no
record-kind restriction is applied here (ReadFrom applies validateHEXRecord instead).
The undefined identifier bytesLen in the source is read as len of the scanned line. -/
def ihexRead (line : List Nat) : Except ReadErr Record :=
  if line.length > maxRecordLen then .error .maxLen
  else
    match line with
    | [] => .error .panicIndex
    | c0 :: _ =>
      if c0 ≠ recordStartCode then .error .startCode
      else
        match parseHexDigits ((line.drop 1).take 2) with
        | none => .error .byteCountParse
        | some byteCount =>
          if byteCount > 127 then .error .byteCountParse
          else
            let actualByteCount : Int := Int.tdiv ((line.length : Int) - 11) 2
            if byteCount > 255 then .error .byteCountTooLarge
            else if (byteCount : Int) ≠ actualByteCount then .error .byteCountMismatch
            else
              match parseHexDigits ((line.drop 3).take 4) with
              | none => .error .addressParse
              | some address =>
                if address > 65535 then .error .addressParse
                else
                  match parseHexDigits ((line.drop 7).take 2) with
                  | none => .error .typeParse
                  | some recordType =>
                    if recordType > 255 then .error .typeParse
                    else
                      match hexDecodePairs ((line.drop 9).take (line.length - 11)) with
                      | none => .error .dataDecode
                      | some data =>
                        if data.length ≠ byteCount then .error .dataLen
                        else
                          match parseHexDigits ((line.drop (line.length - 2)).take 2) with
                          | none => .error .checksumParse
                          | some recordChecksum =>
                            if recordChecksum > 255 then .error .checksumParse
                            else if recordChecksum % 256 ≠ generateChecksum data recordType then
                              .error .checksumMismatch
                            else .ok ⟨recordType, address, data⟩

/-- The error struct of errors.go for records incompatible with a file type; the second
field name keeps the spelling used in the source. -/
structure InvalidRecordTypeError where
  InvalidRecordType : Nat
  InvaildFileType : Nat
deriving DecidableEq, Repr

/-- I8HEXFile from unnamed/part_001. -/
structure I8HEXFile where
  recordIndex : Int
  records : List Record
deriving DecidableEq, Repr

def I8HEXFile.GetType (_ : I8HEXFile) : Nat := I8HEX

/-- I8HEXFile.Add from unnamed/part_001: type validation, then append. -/
def I8HEXFile.Add (me : I8HEXFile) (r : Record) : Except InvalidRecordTypeError I8HEXFile :=
  if !(r.validate me.GetType) then
    .error { InvaildFileType := me.GetType, InvalidRecordType := r.type }
  else .ok { me with records := me.records ++ [r] }

/-- I16HEXFile from i16hex.go. -/
structure I16HEXFile where
  recordIndex : Int
  records : List Record
deriving DecidableEq, Repr

def I16HEXFile.GetType (_ : I16HEXFile) : Nat := I16HEX

/-- I16HEXFile.Add from i16hex.go (lines 33 to 44): type validation, then append. -/
def I16HEXFile.Add (me : I16HEXFile) (r : Record) : Except InvalidRecordTypeError I16HEXFile :=
  if !(r.validate me.GetType) then
    .error { InvaildFileType := me.GetType, InvalidRecordType := r.type }
  else .ok { me with records := me.records ++ [r] }

/-- I32HEXFile from i32hex.go. -/
structure I32HEXFile where
  recordIndex : Int
  records : List Record
deriving DecidableEq, Repr

def I32HEXFile.GetType (_ : I32HEXFile) : Nat := I32HEX

/-- I32HEXFile.ReadNext from i32hex.go: when recordIndex + 1 reaches the record count it
returns the zero Record and false leaving the state as is; otherwise it increments the
index and returns the record there with true. -/
def I32HEXFile.ReadNext (me : I32HEXFile) : Record × Bool × I32HEXFile :=
  if me.recordIndex + 1 ≥ (me.records.length : Int) then (⟨0, 0, []⟩, false, me)
  else
    let me1 : I32HEXFile := { me with recordIndex := me.recordIndex + 1 }
    (me.records.getD me1.recordIndex.toNat ⟨0, 0, []⟩, true, me1)

/-- I32HEXFile.Reset from i32hex.go. -/
def I32HEXFile.Reset (me : I32HEXFile) : I32HEXFile := { me with recordIndex := -1 }

/-- I32HEXFile.Add from i32hex.go: type validation, then append. -/
def I32HEXFile.Add (me : I32HEXFile) (r : Record) : Except InvalidRecordTypeError I32HEXFile :=
  if !(r.validate me.GetType) then
    .error { InvaildFileType := me.GetType, InvalidRecordType := r.type }
  else .ok { me with records := me.records ++ [r] }

/-- NewI32HEXFile from i32hex.go. -/
def NewI32HEXFile : I32HEXFile := { recordIndex := -1, records := [] }

-- Constants from fileWriter.go.
def writerMaximumI8HEXRecords : Nat := 65536

def writerMaximumI16HEXRecords : Nat := 1048576

def writerMaximumI32HEXRecords : Nat := 4294967296

/-- FileWriter from fileWriter.go; the underlying io.Writer is modelled by returning the
list of records each operation writes to it. -/
structure FileWriter where
  recordSize : Nat
  recordCount : Nat
  buffer : List Nat
  bufferIndex : Nat
  fileType : Nat
  closed : Bool
deriving DecidableEq, Repr

/-- The failure cases of the FileWriter operations. panicPutUint16 stands for the Go run-time
crash of binary.BigEndian.PutUint16 applied to the zero-length slice b. -/
inductive WriterErr where
  | closedWriter
  | maxRecords (fileType : Nat)
  | panicPutUint16
deriving DecidableEq, Repr

/-- FileWriter.writeDataRecord from fileWriter.go (lines 114 to 172). The address is
uint16 of recordCount masked with 0xFF; the extension payload for I32HEX is
uint16 of recordCount masked with 0xFF00 then shifted right 16, and for I16HEX
uint16 of recordCount divided by 16; when the payload is positive the source calls
PutUint16 on a slice made with length zero, which crashes. Emitted records stand for
the text Record.write produces on the underlying writer. -/
def FileWriter.writeDataRecord (me : FileWriter) (data : List Nat) :
    List Record × Except WriterErr FileWriter :=
  if (me.fileType = I8HEX ∧ me.recordCount ≥ writerMaximumI8HEXRecords) ∨
     (me.fileType = I16HEX ∧ me.recordCount ≥ writerMaximumI16HEXRecords) ∨
     (me.fileType = I32HEX ∧ me.recordCount ≥ writerMaximumI32HEXRecords) then
    ([], .error (.maxRecords me.fileType))
  else
    let address := me.recordCount &&& 0x00000000000000FF
    let addressExtension : Nat :=
      if address = 0 ∧ me.recordCount > 0 then
        if me.fileType = I32HEX then ((me.recordCount &&& 0x000000000000FF00) >>> 16) % 65536
        else if me.fileType = I16HEX then (me.recordCount / 16) % 65536
        else 0
      else 0
    if addressExtension > 0 then ([], .error .panicPutUint16)
    else
      ([{ type := RecordData, addressOffset := address, data := data }],
        .ok { me with recordCount := me.recordCount + 1 })

/-- The byte loop of FileWriter.Write: store the byte, advance the buffer index, and flush
through writeDataRecord whenever the index reaches recordSize; records already flushed are
kept when a later step fails, as the sink already received them. -/
def FileWriter.writeLoop : FileWriter → List Nat → List Record × Except WriterErr FileWriter
  | me, [] => ([], .ok me)
  | me, b :: rest =>
    let me1 : FileWriter :=
      { me with buffer := me.buffer.set me.bufferIndex b, bufferIndex := me.bufferIndex + 1 }
    if me1.bufferIndex ≥ me1.recordSize then
      let me2 : FileWriter := { me1 with bufferIndex := 0 }
      match me2.writeDataRecord me2.buffer with
      | (rs, .error e) => (rs, .error e)
      | (rs, .ok me3) =>
        let step := me3.writeLoop rest
        (rs ++ step.1, step.2)
    else me1.writeLoop rest

/-- FileWriter.Write from fileWriter.go (lines 31 to 54). -/
def FileWriter.Write (me : FileWriter) (p : List Nat) :
    List Record × Except WriterErr FileWriter :=
  if me.closed then ([], .error .closedWriter)
  else me.writeLoop p

/-- The zero-padding loop in FileWriter.Close, which starts at index bufferIndex + 1:
it zeroes every buffer position at or past the given start index. -/
def zeroTail : Nat → List Nat → List Nat
  | _, [] => []
  | 0, _ :: rest => 0 :: zeroTail 0 rest
  | n + 1, b :: rest => b :: zeroTail n rest

/-- FileWriter.Close from fileWriter.go (lines 59 to 81): a second call is a no-op; otherwise
mark closed, and when the buffer holds bytes, zero the positions after bufferIndex and flush
one data record. No EndOfFile record is constructed anywhere in the function. -/
def FileWriter.Close (me : FileWriter) : List Record × Except WriterErr FileWriter :=
  if me.closed then ([], .ok me)
  else
    let me1 : FileWriter := { me with closed := true }
    if me1.bufferIndex > 0 then
      let me2 : FileWriter := { me1 with buffer := zeroTail (me1.bufferIndex + 1) me1.buffer }
      match me2.writeDataRecord me2.buffer with
      | (rs, .error e) => (rs, .error e)
      | (rs, .ok me3) => (rs, .ok me3)
    else ([], .ok me1)

/-- NewFileWriterType from fileWriter.go; the record size is a Go int, whose nonpositive
values collapse to zero in this Nat model. -/
def NewFileWriterType (recordSize : Nat) (fileType : Nat) : Option FileWriter :=
  if recordSize > recordMaximumDataSize ∨ recordSize = 0 then none
  else some { recordSize := recordSize, recordCount := 0,
              buffer := List.replicate recordSize 0, bufferIndex := 0,
              fileType := fileType, closed := false }

/-- NewFileWriter from fileWriter.go: NewFileWriterType with I32HEX. -/
def NewFileWriter (recordSize : Nat) : Option FileWriter := NewFileWriterType recordSize I32HEX

/-- HexFile from ihex.go; the field Type of the source is named hexType here. -/
structure HexFile where
  hexType : Nat
  records : List Record
  recordIndex : Int
deriving DecidableEq, Repr

/-- The failure cases of HexFile.ReadFrom in ihex.go, one constructor per return branch:
the first three carry the lineNumber written into the error format string, while the
missing-terminator branch's format string holds no line number. -/
inductive ReadFromError where
  | lineError (lineNumber : Nat) (err : ReadErr)
  | recordAfterEOF (lineNumber : Nat)
  | invalidTypeAtLine (lineNumber : Nat) (t : Nat)
  | missingEOF
deriving DecidableEq, Repr

/-- The line number each ReadFrom failure carries in its message (none when the format
string has no line verb). -/
def ReadFromError.errorLine : ReadFromError → Option Nat
  | .lineError n _ => some n
  | .recordAfterEOF n => some n
  | .invalidTypeAtLine n _ => some n
  | .missingEOF => none

/-- validateHEXRecord from ihex.go, including the duplicated ExtendedSegmentAddress
comparison of the I16HEX branch exactly as in the source. -/
def validateHEXRecord (record : Record) (hexType : Nat) : Bool :=
  let isDataOrEOF := record.type == RecordTypeData || record.type == RecordTypeEndOfFile
  if hexType == HexFileTypeI8HEX then isDataOrEOF
  else if hexType == HexFileTypeI16HEX then
    isDataOrEOF || record.type == RecordTypeExtendedSegmentAddress ||
      record.type == RecordTypeExtendedSegmentAddress
  else if hexType == HexFileTypeI32HEX then
    isDataOrEOF || record.type == RecordTypeExtendedLinearAddress ||
      record.type == RecordTypeStartLinearAddress
  else false

/-- The scanner loop of HexFile.ReadFrom in ihex.go: lineNumber starts at 1 and is
incremented after each appended record; when the lines run out, a missing final
EndOfFile record is reported without a line number. -/
def readFromLoop (hexType : Nat) :
    List (List Nat) → Nat → List Record → Except ReadFromError (List Record)
  | [], _, records =>
    if records.getLast?.map Record.type = some RecordTypeEndOfFile then .ok records
    else .error .missingEOF
  | line :: rest, lineNumber, records =>
    match ihexRead line with
    | .error e => .error (.lineError lineNumber e)
    | .ok record =>
      if records.getLast?.map Record.type = some RecordTypeEndOfFile then
        .error (.recordAfterEOF lineNumber)
      else if !(validateHEXRecord record hexType) then
        .error (.invalidTypeAtLine lineNumber record.type)
      else readFromLoop hexType rest (lineNumber + 1) (records ++ [record])

/-- HexFile.ReadFrom from ihex.go (lines 196 to 243): run the scanner loop from line 1
with no records, then install the records and Reset. -/
def HexFile.ReadFrom (me : HexFile) (lines : List (List Nat)) : Except ReadFromError HexFile :=
  match readFromLoop me.hexType lines 1 [] with
  | .error e => .error e
  | .ok records => .ok ⟨me.hexType, records, -1⟩

/-- The 32-bit wrapping fold equals the plain sum as long as the total stays below 2 to the 32. -/
theorem uint32Sum_eq_sum (data : List Nat) (h : data.sum < 4294967296) :
    uint32Sum data = data.sum := by
  unfold uint32Sum
  suffices hgen : ∀ (l : List Nat) (acc : Nat), acc + l.sum < 4294967296 →
      l.foldl (fun s d => (s + d) % 4294967296) acc = acc + l.sum by
    simpa using hgen data 0 (by simpa using h)
  intro l
  induction l with
  | nil => intro acc _; simp
  | cons d t ih =>
    intro acc hacc
    simp only [List.foldl_cons, List.sum_cons] at hacc ⊢
    rw [Nat.mod_eq_of_lt (by omega), ih (acc + d) (by omega)]
    omega

/-- A byte list of length at most 255 sums to at most 255 squared. -/
theorem byte_sum_le (data : List Nat) (hd : ∀ b ∈ data, b < 256)
    (hl : data.length ≤ 255) : data.sum ≤ 65025 := by
  have h1 : data.sum ≤ data.length • 255 :=
    List.sum_le_card_nsmul data 255 (fun x hx => Nat.le_of_lt_succ (hd x hx))
  have h2 : data.length • 255 = data.length * 255 := by simp [smul_eq_mul]
  have h3 : data.length * 255 ≤ 255 * 255 := Nat.mul_le_mul_right 255 hl
  omega

/-- C5: for every record whose data bytes number at most 255 and whose kind is not EndOfFile,
the sum of the data bytes plus the generated checksum is divisible by 256; for the EndOfFile
kind the checksum is the fixed value 0xFF whatever the data holds. -/
theorem C5_checksum_invariant (r : Record) (hd : ∀ b ∈ r.data, b < 256)
    (hl : r.data.length ≤ 255) (hk : r.type ≠ RecordEOF) :
    (r.data.sum + r.getChecksum) % 256 = 0 ∧
    ∀ r2 : Record, r2.type = RecordEOF → r2.getChecksum = recordEOFChecksum := by
  constructor
  · have hsum : r.data.sum ≤ 65025 := byte_sum_le r.data hd hl
    unfold Record.getChecksum
    rw [if_neg hk, uint32Sum_eq_sum r.data (by omega)]
    rw [show (0x000000FF : Nat) = 2 ^ 8 - 1 by norm_num,
      Nat.and_pow_two_sub_one_eq_mod (4294967295 - r.data.sum) 8]
    omega
  · intro r2 h2
    unfold Record.getChecksum
    rw [if_pos h2]

/-- C5 witness: the invariant evaluated at the Data record with the single payload byte 0xAA. -/
theorem C5_checksum_invariant_witness :
    ((Record.mk RecordData 16 [170]).data.sum + (Record.mk RecordData 16 [170]).getChecksum)
      % 256 = 0 :=
  (C5_checksum_invariant ⟨RecordData, 16, [170]⟩ (by decide) (by decide) (by decide)).1

/-- C7: Record.validate is exactly the legality table of the claim: Data and EndOfFile are legal
for every file type, the segment records only for I16HEX, the linear records only for I32HEX,
and every other combination is illegal. -/
theorem C7_validate_table (t addr : Nat) (data : List Nat) (ft : Nat)
    (hft : ft = I8HEX ∨ ft = I16HEX ∨ ft = I32HEX) :
    Record.validate ⟨t, addr, data⟩ ft = true ↔
      (t = RecordData ∨ t = RecordEOF ∨
       ((t = RecordExtSegment ∨ t = RecordStartSegment) ∧ ft = I16HEX) ∨
       ((t = RecordExtLinear ∨ t = RecordStartLinear) ∧ ft = I32HEX)) := by
  rcases hft with h | h | h <;> subst h <;>
    simp [Record.validate, RecordData, RecordEOF, RecordExtSegment, RecordStartSegment,
      RecordExtLinear, RecordStartLinear, I8HEX, I16HEX, I32HEX] <;>
    tauto

/-- C7 witness: the table applied to the extended segment kind, legal under I16HEX and
illegal under I32HEX. -/
theorem C7_validate_table_witness :
    Record.validate ⟨RecordExtSegment, 0, []⟩ I16HEX = true ∧
    Record.validate ⟨RecordExtSegment, 0, []⟩ I32HEX = false := by
  constructor
  · exact (C7_validate_table RecordExtSegment 0 [] I16HEX (Or.inr (Or.inl rfl))).mpr
      (Or.inr (Or.inr (Or.inl ⟨Or.inl rfl, rfl⟩)))
  · have h := C7_validate_table RecordExtSegment 0 [] I32HEX (Or.inr (Or.inr rfl))
    have h2 : ¬ (Record.validate ⟨RecordExtSegment, 0, []⟩ I32HEX = true) := by
      rw [h]; decide
    simpa using h2

/-- C10: ReadNext past the last element returns the zero record and false leaving the state
unchanged, so further calls keep returning false; Reset puts the cursor at -1, and on a
nonempty file the next ReadNext returns the first record with the cursor at 0. -/
theorem C10_cursor (me : I32HEXFile) :
    (me.recordIndex + 1 ≥ (me.records.length : Int) →
      me.ReadNext = (⟨0, 0, []⟩, false, me) ∧
      (me.ReadNext.2.2).ReadNext = (⟨0, 0, []⟩, false, me)) ∧
    me.Reset.recordIndex = -1 ∧
    (∀ r rest, me.records = r :: rest →
      me.Reset.ReadNext = (r, true, { me with recordIndex := 0 })) := by
  refine ⟨?_, rfl, ?_⟩
  · intro h
    have h1 : me.ReadNext = (⟨0, 0, []⟩, false, me) := by
      unfold I32HEXFile.ReadNext
      rw [if_pos h]
    refine ⟨h1, ?_⟩
    rw [h1]
    unfold I32HEXFile.ReadNext
    rw [if_pos h]
  · intro r rest hrec
    unfold I32HEXFile.Reset I32HEXFile.ReadNext
    simp [hrec]

/-- C10 witness: the theorem applied to a one-record file whose cursor sits on the last
element, and to the same file after Reset. -/
theorem C10_cursor_witness :
    I32HEXFile.ReadNext ⟨0, [⟨RecordData, 5, [7]⟩]⟩ =
      (⟨0, 0, []⟩, false, ⟨0, [⟨RecordData, 5, [7]⟩]⟩) ∧
    (I32HEXFile.Reset ⟨0, [⟨RecordData, 5, [7]⟩]⟩).ReadNext =
      (⟨RecordData, 5, [7]⟩, true, ⟨0, [⟨RecordData, 5, [7]⟩]⟩) := by
  refine ⟨((C10_cursor ⟨0, [⟨RecordData, 5, [7]⟩]⟩).1 (by decide)).1, ?_⟩
  exact (C10_cursor ⟨0, [⟨RecordData, 5, [7]⟩]⟩).2.2 ⟨RecordData, 5, [7]⟩ [] rfl

/-- C8 counterexample: appending a Data record to an I16HEXFile whose only record is an
EndOfFile record succeeds and appends it, rather than failing with a duplicate-terminator
error and leaving the sequence unchanged. -/
theorem C8_counterexample :
    I16HEXFile.Add ⟨-1, [⟨RecordEOF, 0, []⟩]⟩ ⟨RecordData, 0, [170]⟩ =
      .ok ⟨-1, [⟨RecordEOF, 0, []⟩, ⟨RecordData, 0, [170]⟩]⟩ := by decide

/-- C8 (amended): I16HEXFile.Add performs only the record and file type compatibility check;
a record whose kind is legal for I16HEX is appended even when the sequence already contains
an EndOfFile record, and no duplicate-terminator failure exists. -/
theorem C8_amended_add (me : I16HEXFile) (r : Record)
    (_heof : ∃ e ∈ me.records, e.type = RecordEOF)
    (hv : r.validate I16HEX = true) :
    me.Add r = .ok { me with records := me.records ++ [r] } := by
  unfold I16HEXFile.Add
  simp [I16HEXFile.GetType, hv]

/-- C8 witness: the amended statement applied to a sequence holding an EndOfFile record and
an extended segment record legal for I16HEX. -/
theorem C8_amended_add_witness :
    I16HEXFile.Add ⟨-1, [⟨RecordEOF, 0, []⟩]⟩ ⟨RecordExtSegment, 0, [0, 16]⟩ =
      .ok ⟨-1, [⟨RecordEOF, 0, []⟩, ⟨RecordExtSegment, 0, [0, 16]⟩]⟩ :=
  C8_amended_add ⟨-1, [⟨RecordEOF, 0, []⟩]⟩ ⟨RecordExtSegment, 0, [0, 16]⟩
    ⟨⟨RecordEOF, 0, []⟩, by decide⟩ (by decide)

/-- A successful readFromLoop run always ends in a record list whose last element is an
EndOfFile record. -/
theorem readFromLoop_ok_lastEOF (hexType : Nat) (lines : List (List Nat)) :
    ∀ (n : Nat) (acc rs : List Record),
      readFromLoop hexType lines n acc = .ok rs →
      rs.getLast?.map Record.type = some RecordTypeEndOfFile := by
  induction lines with
  | nil =>
    intro n acc rs h
    unfold readFromLoop at h
    split at h
    · cases h
      assumption
    · cases h
  | cons line rest ih =>
    intro n acc rs h
    unfold readFromLoop at h
    split at h
    · cases h
    · rename_i record _
      split at h
      · cases h
      · split at h
        · cases h
        · exact ih (n + 1) (acc ++ [record]) rs h

/-- C9 (amended): a stream whose lines run out without a final EndOfFile record fails
(success always ends in an EndOfFile record); a record parsed while the accumulated records
already end in an EndOfFile record fails with the record-after-EOF error carrying the current
1-based line number; but the missing-terminator failure carries no line number at all. -/
theorem C9_amended_read (me : HexFile) (lines : List (List Nat)) :
    (∀ f, me.ReadFrom lines = .ok f →
      f.records.getLast?.map Record.type = some RecordTypeEndOfFile) ∧
    (∀ (n : Nat) (acc : List Record) (line : List Nat) (rest : List (List Nat)) (r : Record),
      ihexRead line = .ok r →
      acc.getLast?.map Record.type = some RecordTypeEndOfFile →
      readFromLoop me.hexType (line :: rest) n acc = .error (.recordAfterEOF n) ∧
      (ReadFromError.recordAfterEOF n).errorLine = some n) ∧
    ReadFromError.missingEOF.errorLine = none := by
  refine ⟨?_, ?_, rfl⟩
  · intro f h
    unfold HexFile.ReadFrom at h
    cases hl : readFromLoop me.hexType lines 1 [] with
    | error e => rw [hl] at h; cases h
    | ok rs =>
      rw [hl] at h
      cases h
      exact readFromLoop_ok_lastEOF me.hexType lines 1 [] rs hl
  · intro n acc line rest r hparse heof
    refine ⟨?_, rfl⟩
    unfold readFromLoop
    rw [hparse]
    simp only [heof, if_pos]

/-- C9 witness: the amended statement applied to a Data record line parsed on line 2 after an
EndOfFile record. -/
theorem C9_amended_read_witness :
    readFromLoop HexFileTypeI8HEX [[58, 48, 49, 48, 48, 49, 48, 48, 48, 65, 65, 53, 54]] 2
      [⟨RecordTypeEndOfFile, 0, []⟩] = .error (.recordAfterEOF 2) ∧
    (ReadFromError.recordAfterEOF 2).errorLine = some 2 :=
  (C9_amended_read ⟨HexFileTypeI8HEX, [], -1⟩ []).2.1 2 [⟨RecordTypeEndOfFile, 0, []⟩]
    [58, 48, 49, 48, 48, 49, 48, 48, 48, 65, 65, 53, 54] [] ⟨RecordTypeData, 16, [170]⟩
    (by decide) (by decide)

/-- C9 counterexample: decoding an empty stream fails with the missing-terminator error, and
that error carries no line number, against the claim that every such failure is annotated
with the 1-based line number at which it occurred. -/
theorem C9_counterexample :
    HexFile.ReadFrom ⟨HexFileTypeI8HEX, [], -1⟩ [] = .error .missingEOF ∧
    ReadFromError.errorLine .missingEOF = none := by decide

/-- C1: with record size 1 and the single input byte 0xAB, the whole output stream of Write
followed by Close is the one data record; Close flushes nothing further and emits no
EndOfFile record, against the claimed data-records-then-one-EndOfFile layout and against
the doc comment of Close itself. -/
theorem C1_close_writes_no_eof :
    FileWriter.Write ⟨1, 0, [0], 0, I8HEX, false⟩ [171] =
      ([⟨RecordData, 0, [171]⟩], .ok ⟨1, 1, [171], 0, I8HEX, false⟩) ∧
    FileWriter.Close ⟨1, 1, [171], 0, I8HEX, false⟩ = ([], .ok ⟨1, 1, [171], 0, I8HEX, true⟩) ∧
    (([⟨RecordData, 0, [171]⟩] : List Record) ++ []).countP
      (fun rcd : Record => rcd.type == RecordTypeEndOfFile) = 0 := by decide

/-- C2: with record size 2 and input bytes 01 02 03, Close emits the final data record with
data 03 02: the zero-padding loop starts one position past the buffer index and leaves the
stale byte 02 of the previous record in place, instead of the claimed 03 00. -/
theorem C2_stale_pad_byte :
    FileWriter.Write ⟨2, 0, [0, 0], 0, I8HEX, false⟩ [1, 2, 3] =
      ([⟨RecordData, 0, [1, 2]⟩], .ok ⟨2, 1, [3, 2], 1, I8HEX, false⟩) ∧
    (FileWriter.Close ⟨2, 1, [3, 2], 1, I8HEX, false⟩).1.map Record.data = [[3, 2]] ∧
    ([[3, 2]] : List (List Nat)) ≠ [[3, 0]] := by decide

/-- C3: writing 257 bytes through a record-size-1 I8HEX writer emits a 257th data record with
address 0, because writeDataRecord masks the record counter with 0xFF; the low 16 bits of the
counter at that point are 256. -/
theorem C3_address_masks_8_bits :
    (FileWriter.Write ⟨1, 0, [0], 0, I8HEX, false⟩ (List.replicate 257 5)).1.getLast? =
      some ⟨RecordData, 0, [5]⟩ ∧
    256 % 65536 = 256 ∧ (0 : Nat) ≠ 256 := by decide

/-- C4: an I32HEX writer at data-record index 65536 emits no extension record at all, since
the payload computed from the counter masked with 0xFF00 then shifted right 16 is always
zero; and an I16HEX writer already attempts an extension at index 256 — not a multiple of
65536 — where PutUint16 on the empty slice crashes, so the 257-byte run errors out after 256
data records and no extension record. -/
theorem C4_extension_records_wrong :
    FileWriter.writeDataRecord ⟨1, 65536, [0], 0, I32HEX, false⟩ [9] =
      ([⟨RecordData, 0, [9]⟩], .ok ⟨1, 65537, [0], 0, I32HEX, false⟩) ∧
    (FileWriter.Write ⟨1, 0, [0], 0, I16HEX, false⟩ (List.replicate 257 5)).2 =
      .error .panicPutUint16 ∧
    (FileWriter.Write ⟨1, 0, [0], 0, I16HEX, false⟩ (List.replicate 257 5)).1.countP
      (fun rcd : Record => rcd.type == RecordTypeExtendedSegmentAddress) = 0 := by decide

/-- C6: the encode then decode round trip already fails for a Data record with 128 zero data
bytes: readRecord parses the byte-count field through ParseInt with bit size 8, so the
encoded count 0x80 is a range error, though the maximum record data size is 255. -/
theorem C6_roundtrip_fails_at_128 :
    readRecord (Record.encodeLine ⟨RecordData, 0, List.replicate 128 0⟩) =
      .error .byteCountParse ∧
    Record.write ⟨RecordData, 0, List.replicate 128 0⟩ =
      Record.encodeLine ⟨RecordData, 0, List.replicate 128 0⟩ ++ [10] :=
  ⟨by decide, rfl⟩

end Ihex
